import Mathlib

/-!
# kubeinit: a verification development

A shallow embedding of `pkg/config/config.go` and `cmd/kubeinit/main.go`.

* Go strings are modelled by `String`; the only string operations the program
  performs are equality tests and a match against an ASCII pattern.
* The process environment is a lookup function, as `os.LookupEnv` sees it.
* Go `error` values are modelled by `GoError`, which keeps apart the errors the
  program allocates itself (`errors.New`, `fmt.Errorf`) and the errors handed
  back by a collaborator (go-getter, `os`, `os/exec`).
* Effects (log records, retrieval, stat, child processes) are recorded in a
  trace of `Event`s; what the outside world answers is taken from a `World`.
-/

namespace Kubeinit

/-! ## Go error values -/

/-- Go `error` values as the program meets them. -/
inductive GoError where
  /-- Value allocated by `errors.New s` (and by `fmt.Errorf` without `%w`). -/
  | errorString (s : String)
  /-- Value allocated by `fmt.Errorf` with one `%w` verb: message and wrapped error. -/
  | wrapError (msg : String) (err : GoError)
  /-- Error returned by a collaborator, with the text of its `Error()` method. -/
  | foreign (text : String)
  deriving DecidableEq, Repr

/-- Method `Error()` of an error value. -/
def GoError.Error : GoError → String
  | .errorString s => s
  | .wrapError msg _ => msg
  | .foreign text => text

/-- Go `errors.New`. -/
def errorsNew (s : String) : GoError := .errorString s

/-! ## A fragment of Go `regexp`, enough for the pattern of `fetchHelmfile` -/

/-- Regular expression syntax tree (the operators the source pattern uses). -/
inductive Regex where
  /-- Anchor `^` (no multi-line flag): matches at the beginning of the text only. -/
  | beginText
  /-- Literal run of characters. -/
  | literal (w : List Char)
  /-- Concatenation. -/
  | concat (r s : Regex)
  /-- Alternation `r|s`. -/
  | alternate (r s : Regex)
  /-- Optional `r?`. -/
  | quest (r : Regex)
  deriving Repr

/-- All ways `re` can match starting at offset `x.1`, where `x.2` is the text
from that offset on: the list of (end offset, remaining text). -/
def Regex.step : Regex → Nat × List Char → List (Nat × List Char)
  | .beginText, x => if x.1 = 0 then [x] else []
  | .literal w, x => if w.isPrefixOf x.2 then [(x.1 + w.length, x.2.drop w.length)] else []
  | .concat r s, x => (Regex.step r x).flatMap (fun y => Regex.step s y)
  | .alternate r s, x => Regex.step r x ++ Regex.step s x
  | .quest r, x => Regex.step r x ++ [x]

/-- Unanchored search: is there a match of `re` starting at offset `pos` or later? -/
def Regex.search (re : Regex) : Nat → List Char → Bool
  | pos, [] => !(re.step (pos, [])).isEmpty
  | pos, c :: t => !(re.step (pos, c :: t)).isEmpty || Regex.search re (pos + 1) t

/-- Go `Regexp.MatchString`: does the text contain any match of `re`? -/
def Regex.MatchString (re : Regex) (s : String) : Bool :=
  re.search 0 s.data

/-- The pattern `^(file|https?|s3|git)://` of `fetchHelmfile`. -/
def helmfilePattern : Regex :=
  .concat .beginText
    (.concat
      (.alternate (.literal "file".data)
        (.alternate (.concat (.literal "http".data) (.quest (.literal "s".data)))
          (.alternate (.literal "s3".data) (.literal "git".data))))
      (.literal "://".data))

/-! ## Package `config` -/

namespace config

/-- Go `type CloudProvider string`. -/
abbrev CloudProvider := String

def AWS : CloudProvider := "aws"
def Azure : CloudProvider := "azure"
def GCP : CloudProvider := "gcp"

/-- Go `type Config struct`. -/
structure Config where
  HelmfileFile : String
  CloudProvider : CloudProvider
  ClusterName : String
  deriving DecidableEq, Repr

/-- The process environment as `os.LookupEnv` reads it: `none` when the
variable is not set, `some v` when it is set to `v` (possibly empty). -/
abbrev Env := String → Option String

/-- Zero value `&Config{}`. -/
def Config.zero : Config := ⟨"", "", ""⟩

/-- Method `(*Config).fetchHelmfile`: the receiver after the call, or the error.
The pattern is a constant that compiles, so `regexp.MatchString` returns no error. -/
def fetchHelmfile (env : Env) (c : Config) : Except GoError Config :=
  match env "HELMFILE_FILE" with
  | none => .error (errorsNew "HELMFILE_FILE environment variable is not set")
  | some helmfileFile =>
    let matched := helmfilePattern.MatchString helmfileFile
    if !matched then
      .error (errorsNew "HELMFILE_FILE must start with file://, http://, https://, s3://, or git://")
    else
      .ok { c with HelmfileFile := helmfileFile }

/-- Method `(*Config).fetchCloudProvider`. -/
def fetchCloudProvider (env : Env) (c : Config) : Except GoError Config :=
  match env "CLOUD_PROVIDER" with
  | none => .error (errorsNew "CLOUD_PROVIDER environment variable is not set")
  | some cloudProvider =>
    if cloudProvider = AWS ∨ cloudProvider = Azure ∨ cloudProvider = GCP then
      .ok { c with CloudProvider := cloudProvider }
    else
      .error (errorsNew "CLOUD_PROVIDER must be one of: aws, azure, gcp")

/-- Method `(*Config).fetchClusterName`. -/
def fetchClusterName (env : Env) (c : Config) : Except GoError Config :=
  match env "CLUSTER_NAME" with
  | none => .error (errorsNew "CLUSTER_NAME environment variable is not set")
  | some clusterName => .ok { c with ClusterName := clusterName }

/-- Method `(*Config).lookup`: the three fetches in order, stopping at the first error. -/
def lookup (env : Env) (c : Config) : Except GoError Config :=
  match fetchHelmfile env c with
  | .error err => .error err
  | .ok c1 =>
    match fetchCloudProvider env c1 with
    | .error err => .error err
    | .ok c2 =>
      match fetchClusterName env c2 with
      | .error err => .error err
      | .ok c3 => .ok c3

/-- Function `config.New`: `(nil, err)` is `.error err`, `(cfg, nil)` is `.ok cfg`. -/
def New (env : Env) : Except GoError Config :=
  match lookup env Config.zero with
  | .error err => .error err
  | .ok cfg => .ok cfg

end config

/-! ## Package `main` -/

open config

/-- Level of a zap log record. -/
inductive Level where
  | info | warn | error | fatal
  deriving DecidableEq, Repr

/-- Value of a structured field of a log record. -/
inductive Field where
  /-- String value, as in `"cluster", cfg.ClusterName`. -/
  | str (s : String)
  /-- Error value, as in `"error", err` and `zap.Error(err)`. -/
  | err (e : GoError)
  /-- Byte string, as in `zap.ByteString("output", out)`. -/
  | bytes (b : List (Fin 256))
  /-- Configuration value, as in `"config", cfg`. -/
  | cfg (c : Config)
  deriving DecidableEq, Repr

/-- One log record: level, message, key/value fields. -/
structure LogRecord where
  level : Level
  msg : String
  fields : List (String × Field)
  deriving DecidableEq, Repr

/-- Observable actions of the program, in the order they happen. -/
inductive Event where
  /-- Record handed to the logger. -/
  | log (r : LogRecord)
  /-- Call `client.Get` with `Src`, `Dst` and `GetMode: getter.ModeFile`. -/
  | get (src dst : String)
  /-- Call `os.Stat path`. -/
  | stat (path : String)
  /-- Child process started by `exec.Command(argv[0], argv[1:]...)`. -/
  | exec (argv : List String)
  deriving DecidableEq, Repr

/-- What the outside world answers during one run. Every collaborator is
called at most once per argument in a run, so a function describes it. An
error of a collaborator is given by the text of its `Error()` method. -/
structure World where
  /-- The process environment. -/
  env : Env
  /-- Error of `client.Get` for (source, destination); `none` is success. -/
  clientGet : String → String → Option String
  /-- Result of `os.Stat` after the retrieval: the file size (a byte count) or the error. -/
  osStat : String → Except String Nat
  /-- Error of `Cmd.Run` for an argument vector; `none` is exit status zero. -/
  cmdRun : List String → Option String
  /-- Result of `Cmd.CombinedOutput` for an argument vector: the captured bytes and the error. -/
  cmdCombinedOutput : List String → List (Fin 256) × Option String

/-- How the process ends: `main` returns (exit status 0) or `os.Exit code`. -/
inductive Exit where
  | returned
  | osExit (code : Nat)
  deriving DecidableEq, Repr

/-- Exit status of the process. -/
def Exit.status : Exit → Nat
  | .returned => 0
  | .osExit code => code

def FILE_DESTINATION : String := "./helmfile.yaml"

/-- Function `configureCluster`: the events it causes and the error it returns
(`none` is `nil`). -/
def configureCluster (w : World) (cfg : Config) : List Event × Option GoError :=
  if cfg.CloudProvider = AWS then
    let argv := ["aws", "eks", "update-kubeconfig", "--name", cfg.ClusterName]
    let t := [Event.log ⟨.info, "Configuring AWS cluster", [("cluster", .str cfg.ClusterName)]⟩,
              Event.exec argv]
    match w.cmdRun argv with
    | some err => (t, some (.foreign err))
    | none => (t, none)
  else if cfg.CloudProvider = Azure then
    ([Event.log ⟨.info, "Configuring Azure cluster", [("cluster", .str cfg.ClusterName)]⟩,
      Event.log ⟨.warn, "GCP support is not implemented yet", []⟩], none)
  else if cfg.CloudProvider = GCP then
    ([Event.log ⟨.info, "Configuring GCP cluster", [("cluster", .str cfg.ClusterName)]⟩,
      Event.log ⟨.warn, "GCP support is not implemented yet", []⟩], none)
  else
    ([], some (errorsNew "unknown cloud provider"))

/-- Function `getHelmfile`: the events it causes and the error it returns. -/
def getHelmfile (w : World) (source destination : String) : List Event × Option GoError :=
  match w.clientGet source destination with
  | some err => ([Event.get source destination], some (.foreign err))
  | none =>
    let t := [Event.get source destination, Event.stat destination]
    match w.osStat destination with
    | .error err =>
      (t, some (.wrapError ("failed to stat downloaded file: " ++ err) (.foreign err)))
    | .ok size =>
      if size = 0 then (t, some (errorsNew "downloaded file is empty"))
      else (t, none)

/-- Function `main`: the trace of the run and how the process ends.
`log.Fatalw` and `log.Fatal` write the record and call `os.Exit(1)`. -/
def main (w : World) : List Event × Exit :=
  match New w.env with
  | .error err =>
    ([Event.log ⟨.fatal, "Failed to load config", [("error", .err err)]⟩], .osExit 1)
  | .ok cfg =>
    let t0 := [Event.log ⟨.info, "kubeinit started", [("config", .cfg cfg)]⟩]
    match getHelmfile w cfg.HelmfileFile FILE_DESTINATION with
    | (t1, some err) =>
      (t0 ++ t1 ++ [Event.log ⟨.fatal, "Failed to download Helmfile", [("error", .err err)]⟩],
        .osExit 1)
    | (t1, none) =>
      let t2 := t0 ++ t1 ++ [Event.log ⟨.info, "Helmfile file downloaded successfully", []⟩]
      match configureCluster w cfg with
      | (t3, some err) =>
        (t2 ++ t3 ++ [Event.log ⟨.fatal, err.Error, []⟩], .osExit 1)
      | (t3, none) =>
        let t4 := t2 ++ t3 ++
          [Event.log ⟨.info, "Kubernetes cluster configured successfully",
            [("cluster", .str cfg.ClusterName)]⟩]
        let command := ["helmfile", "-f", FILE_DESTINATION, "apply"]
        match w.cmdCombinedOutput command with
        | (out, some err) =>
          (t4 ++ [Event.exec command,
            Event.log ⟨.error, "command failed",
              [("error", .err (.foreign err)), ("output", .bytes out)]⟩],
            .returned)
        | (out, none) =>
          (t4 ++ [Event.exec command,
            Event.log ⟨.info, "command output", [("output", .bytes out)]⟩], .returned)

/-! ## Specification-side notions -/

/-- The five accepted scheme prefixes. -/
def acceptedSchemes : List String :=
  ["file://", "http://", "https://", "s3://", "git://"]

/-- The string begins with one of the accepted scheme prefixes. -/
def hasAcceptedScheme (s : String) : Prop :=
  ∃ p ∈ acceptedSchemes, p.data <+: s.data

instance (s : String) : Decidable (hasAcceptedScheme s) := by
  unfold hasAcceptedScheme; infer_instance

/-- The three supported provider tags. -/
def supportedProviders : List CloudProvider := [AWS, Azure, GCP]

/-- What is wrong with the manifest source of an environment, if anything:
the variable is not set, or its value has no accepted scheme prefix. -/
def sourceProblem (env : Env) : Option GoError :=
  match env "HELMFILE_FILE" with
  | none => some (.errorString "HELMFILE_FILE environment variable is not set")
  | some s =>
    if hasAcceptedScheme s then none
    else some (.errorString
      "HELMFILE_FILE must start with file://, http://, https://, s3://, or git://")

/-- What is wrong with the provider tag of an environment, if anything:
the variable is not set, or its value is outside the enumeration. -/
def providerProblem (env : Env) : Option GoError :=
  match env "CLOUD_PROVIDER" with
  | none => some (.errorString "CLOUD_PROVIDER environment variable is not set")
  | some p =>
    if p ∈ supportedProviders then none
    else some (.errorString "CLOUD_PROVIDER must be one of: aws, azure, gcp")

/-- What the loader reports about the cluster name of an environment, if
anything: the variable is not set. A value that is set, the empty string
included, is no problem here. -/
def clusterNameProblem (env : Env) : Option GoError :=
  match env "CLUSTER_NAME" with
  | none => some (.errorString "CLUSTER_NAME environment variable is not set")
  | some _ => none

/-- The first problem of an environment in the order source, provider, cluster name. -/
def firstProblem (env : Env) : Option GoError :=
  (sourceProblem env).orElse fun _ => (providerProblem env).orElse fun _ => clusterNameProblem env

/-- An input of the environment is missing or invalid, as the specification
words it: the source is unset or has no accepted scheme prefix, the provider is
unset or outside the enumeration, the cluster name is unset or empty. -/
def inputMissingOrInvalid (env : Env) : Prop :=
  (match env "HELMFILE_FILE" with
    | none => True
    | some s => ¬ hasAcceptedScheme s) ∨
  (match env "CLOUD_PROVIDER" with
    | none => True
    | some p => p ∉ supportedProviders) ∨
  (match env "CLUSTER_NAME" with
    | none => True
    | some n => n = "")

/-- The environment with exactly the three given bindings. -/
def mkEnv (source provider clusterName : Option String) : Env := fun name =>
  if name = "HELMFILE_FILE" then source
  else if name = "CLOUD_PROVIDER" then provider
  else if name = "CLUSTER_NAME" then clusterName
  else none

/-- Argument vectors of the child processes of a trace, in order. -/
def execs (t : List Event) : List (List String) :=
  t.filterMap fun e => match e with
    | .exec argv => some argv
    | _ => none

/-- Log records of a trace, in order. -/
def logs (t : List Event) : List LogRecord :=
  t.filterMap fun e => match e with
    | .log r => some r
    | _ => none

/-- Calls to collaborators in a trace (everything but log records), in order. -/
def externalCalls (t : List Event) : List Event :=
  t.filter fun e => match e with
    | .log _ => false
    | _ => true

/-- Argument vector of the credential-update command for a cluster name. -/
def awsCommand (clusterName : String) : List String :=
  ["aws", "eks", "update-kubeconfig", "--name", clusterName]

/-- Argument vector of the deployment command. -/
def helmfileCommand : List String :=
  ["helmfile", "-f", "./helmfile.yaml", "apply"]

/-- The calls to collaborators of a complete run for a configuration, stage by
stage: fetch (retrieval, stat), configure (one command, for `aws` only),
deploy (one command). -/
def pipeline (cfg : Config) : List Event :=
  [Event.get cfg.HelmfileFile "./helmfile.yaml", Event.stat "./helmfile.yaml"] ++
    (if cfg.CloudProvider = "aws" then [Event.exec (awsCommand cfg.ClusterName)] else []) ++
    [Event.exec helmfileCommand]

/-- A world with the given environment and constant answers of the collaborators. -/
def mkWorld (env : Env) (getErr : Option String) (statRes : Except String Nat)
    (runErr : Option String) (out : List (Fin 256) × Option String) : World :=
  ⟨env, fun _ _ => getErr, fun _ => statRes, fun _ => runErr, fun _ => out⟩

/-- The bytes of the text `ERROR: permission denied`. -/
def permissionDenied : List (Fin 256) :=
  [69, 82, 82, 79, 82, 58, 32, 112, 101, 114, 109, 105, 115, 115, 105, 111, 110, 32,
    100, 101, 110, 105, 101, 100]

/-- A run in which load, fetch and configure succeed and the deployment
command exits non-zero after printing `ERROR: permission denied`. -/
def deployFailureWorld : World :=
  mkWorld (mkEnv (some "file:///tmp/test-manifest.yaml") (some "aws") (some "demo"))
    none (.ok 120) none (permissionDenied, some "exit status 1")

/-! ## The pattern matches exactly the strings with an accepted scheme -/

theorem Regex.mem_step_literal (w : List Char) (x y : Nat × List Char) :
    y ∈ Regex.step (.literal w) x ↔ x.2 = w ++ y.2 ∧ y.1 = x.1 + w.length := by
  obtain ⟨p, l⟩ := x
  obtain ⟨q, m⟩ := y
  simp only [Regex.step]
  constructor
  · intro h
    split at h
    · rename_i hp
      rw [List.isPrefixOf_iff_prefix] at hp
      obtain ⟨t, rfl⟩ := hp
      simp only [List.drop_left, List.mem_singleton, Prod.mk.injEq] at h
      obtain ⟨rfl, rfl⟩ := h
      exact ⟨rfl, rfl⟩
    · simp at h
  · rintro ⟨h1, h2⟩
    subst h1 h2
    simp

theorem Regex.mem_step_concat (r s : Regex) (x y : Nat × List Char) :
    y ∈ Regex.step (.concat r s) x ↔ ∃ z, z ∈ Regex.step r x ∧ y ∈ Regex.step s z := by
  simp only [Regex.step, List.mem_flatMap]

theorem Regex.mem_step_alternate (r s : Regex) (x y : Nat × List Char) :
    y ∈ Regex.step (.alternate r s) x ↔ y ∈ Regex.step r x ∨ y ∈ Regex.step s x := by
  simp only [Regex.step, List.mem_append]

theorem Regex.mem_step_quest (r : Regex) (x y : Nat × List Char) :
    y ∈ Regex.step (.quest r) x ↔ y ∈ Regex.step r x ∨ y = x := by
  simp only [Regex.step, List.mem_append, List.mem_singleton]

theorem Regex.mem_step_beginText (x y : Nat × List Char) :
    y ∈ Regex.step .beginText x ↔ x.1 = 0 ∧ y = x := by
  simp only [Regex.step]
  split <;> simp_all

theorem helmfilePattern_mem_step (pos : Nat) (l : List Char) (y : Nat × List Char) :
    y ∈ helmfilePattern.step (pos, l) ↔
      pos = 0 ∧
        ((l = "file://".data ++ y.2 ∧ y.1 = 7) ∨ (l = "http://".data ++ y.2 ∧ y.1 = 7) ∨
          (l = "https://".data ++ y.2 ∧ y.1 = 8) ∨ (l = "s3://".data ++ y.2 ∧ y.1 = 5) ∨
          (l = "git://".data ++ y.2 ∧ y.1 = 6)) := by
  simp only [helmfilePattern, Regex.mem_step_concat, Regex.mem_step_alternate,
    Regex.mem_step_quest, Regex.mem_step_beginText, Regex.mem_step_literal]
  constructor
  · rintro ⟨z, ⟨h0, rfl⟩, u, hu, h3, h4⟩
    simp only at h0 hu h3 h4
    subst h0
    refine ⟨rfl, ?_⟩
    rcases hu with ⟨h1, h2⟩ | ⟨v, ⟨h1, h2⟩, ⟨h5, h6⟩ | h5⟩ | ⟨h1, h2⟩ | ⟨h1, h2⟩
    · left; subst h1; simp [h3, h4, h2]
    · right; right; left; subst h1; simp [h3, h4, h2, h5, h6]
    · right; left; subst h1; subst h5; simp [h3, h4, h2]
    · right; right; right; left; subst h1; simp [h3, h4, h2]
    · right; right; right; right; subst h1; simp [h3, h4, h2]
  · rintro ⟨rfl, h⟩
    refine ⟨(0, l), ⟨rfl, rfl⟩, ?_⟩
    rcases h with ⟨h1, h2⟩ | ⟨h1, h2⟩ | ⟨h1, h2⟩ | ⟨h1, h2⟩ | ⟨h1, h2⟩
    · exact ⟨(4, "://".data ++ y.2), Or.inl (by simp [h1]), by simp, by simp [h2]⟩
    · exact ⟨(4, "://".data ++ y.2),
        Or.inr (Or.inl ⟨(4, "://".data ++ y.2), by simp [h1], Or.inr rfl⟩), by simp, by simp [h2]⟩
    · exact ⟨(5, "://".data ++ y.2),
        Or.inr (Or.inl ⟨(4, "s://".data ++ y.2), by simp [h1], Or.inl (by simp)⟩),
        by simp, by simp [h2]⟩
    · exact ⟨(2, "://".data ++ y.2), Or.inr (Or.inr (Or.inl (by simp [h1]))), by simp, by simp [h2]⟩
    · exact ⟨(3, "://".data ++ y.2), Or.inr (Or.inr (Or.inr (by simp [h1]))), by simp, by simp [h2]⟩

theorem helmfilePattern_step_succ (pos : Nat) (l : List Char) :
    helmfilePattern.step (pos + 1, l) = [] := by
  rw [List.eq_nil_iff_forall_not_mem]
  intro y hy
  rw [helmfilePattern_mem_step] at hy
  exact Nat.succ_ne_zero pos hy.1

theorem helmfilePattern_search_succ (l : List Char) :
    ∀ pos : Nat, helmfilePattern.search (pos + 1) l = false := by
  induction l with
  | nil => intro pos; simp [Regex.search, helmfilePattern_step_succ]
  | cons c t ih => intro pos; simp [Regex.search, helmfilePattern_step_succ, ih]

theorem helmfilePattern_search_zero (l : List Char) :
    helmfilePattern.search 0 l = !(helmfilePattern.step (0, l)).isEmpty := by
  cases l with
  | nil => simp [Regex.search]
  | cons c t => simp [Regex.search, helmfilePattern_search_succ]

/-- The pattern of `fetchHelmfile` matches a string exactly when the string
begins with one of the five accepted scheme prefixes. -/
theorem helmfilePattern_MatchString_iff (s : String) :
    helmfilePattern.MatchString s = true ↔ hasAcceptedScheme s := by
  unfold Regex.MatchString hasAcceptedScheme
  rw [helmfilePattern_search_zero]
  simp only [Bool.not_eq_true', List.isEmpty_eq_false, acceptedSchemes, List.mem_cons,
    List.mem_singleton, List.not_mem_nil, or_false, exists_eq_or_imp, exists_eq_left]
  constructor
  · intro h
    obtain ⟨y, hy⟩ := List.exists_mem_of_ne_nil _ h
    rw [helmfilePattern_mem_step] at hy
    rcases hy.2 with ⟨h1, _⟩ | ⟨h1, _⟩ | ⟨h1, _⟩ | ⟨h1, _⟩ | ⟨h1, _⟩
    · exact Or.inl ⟨y.2, h1.symm⟩
    · exact Or.inr (Or.inl ⟨y.2, h1.symm⟩)
    · exact Or.inr (Or.inr (Or.inl ⟨y.2, h1.symm⟩))
    · exact Or.inr (Or.inr (Or.inr (Or.inl ⟨y.2, h1.symm⟩)))
    · exact Or.inr (Or.inr (Or.inr (Or.inr ⟨y.2, h1.symm⟩)))
  · intro h
    rcases h with ⟨t, ht⟩ | ⟨t, ht⟩ | ⟨t, ht⟩ | ⟨t, ht⟩ | ⟨t, ht⟩
    · exact List.ne_nil_of_mem
        ((helmfilePattern_mem_step 0 s.data (7, t)).2 ⟨rfl, Or.inl ⟨ht.symm, rfl⟩⟩)
    · exact List.ne_nil_of_mem
        ((helmfilePattern_mem_step 0 s.data (7, t)).2 ⟨rfl, Or.inr (Or.inl ⟨ht.symm, rfl⟩)⟩)
    · exact List.ne_nil_of_mem ((helmfilePattern_mem_step 0 s.data (8, t)).2
        ⟨rfl, Or.inr (Or.inr (Or.inl ⟨ht.symm, rfl⟩))⟩)
    · exact List.ne_nil_of_mem ((helmfilePattern_mem_step 0 s.data (5, t)).2
        ⟨rfl, Or.inr (Or.inr (Or.inr (Or.inl ⟨ht.symm, rfl⟩)))⟩)
    · exact List.ne_nil_of_mem ((helmfilePattern_mem_step 0 s.data (6, t)).2
        ⟨rfl, Or.inr (Or.inr (Or.inr (Or.inr ⟨ht.symm, rfl⟩)))⟩)

/-! ## Package `config`: what `New` computes -/

theorem fetchHelmfile_eq (env : Env) (c : Config) :
    fetchHelmfile env c =
      match env "HELMFILE_FILE" with
      | none => .error (.errorString "HELMFILE_FILE environment variable is not set")
      | some s =>
        if hasAcceptedScheme s then .ok { c with HelmfileFile := s }
        else .error (.errorString
          "HELMFILE_FILE must start with file://, http://, https://, s3://, or git://") := by
  unfold fetchHelmfile
  cases env "HELMFILE_FILE" with
  | none => rfl
  | some s =>
    by_cases h : hasAcceptedScheme s
    · have hm := (helmfilePattern_MatchString_iff s).2 h
      simp [h, hm]
    · have hm : helmfilePattern.MatchString s = false := by
        cases hb : helmfilePattern.MatchString s with
        | false => rfl
        | true => exact absurd ((helmfilePattern_MatchString_iff s).1 hb) h
      simp [h, hm, errorsNew]

theorem fetchCloudProvider_eq (env : Env) (c : Config) :
    fetchCloudProvider env c =
      match env "CLOUD_PROVIDER" with
      | none => .error (.errorString "CLOUD_PROVIDER environment variable is not set")
      | some p =>
        if p ∈ supportedProviders then .ok { c with CloudProvider := p }
        else .error (.errorString "CLOUD_PROVIDER must be one of: aws, azure, gcp") := by
  unfold fetchCloudProvider
  cases env "CLOUD_PROVIDER" with
  | none => rfl
  | some p => simp [supportedProviders, errorsNew]

/-- The whole of `New`, by cases on the three variables. -/
theorem New_eq (env : Env) :
    New env =
      match env "HELMFILE_FILE" with
      | none => .error (.errorString "HELMFILE_FILE environment variable is not set")
      | some s =>
        if hasAcceptedScheme s then
          match env "CLOUD_PROVIDER" with
          | none => .error (.errorString "CLOUD_PROVIDER environment variable is not set")
          | some p =>
            if p ∈ supportedProviders then
              match env "CLUSTER_NAME" with
              | none => .error (.errorString "CLUSTER_NAME environment variable is not set")
              | some n => .ok ⟨s, p, n⟩
            else .error (.errorString "CLOUD_PROVIDER must be one of: aws, azure, gcp")
        else .error (.errorString
          "HELMFILE_FILE must start with file://, http://, https://, s3://, or git://") := by
  unfold New lookup
  rw [fetchHelmfile_eq]
  cases env "HELMFILE_FILE" with
  | none => rfl
  | some s =>
    by_cases hs : hasAcceptedScheme s
    · simp only [hs, if_true]
      rw [fetchCloudProvider_eq]
      cases env "CLOUD_PROVIDER" with
      | none => rfl
      | some p =>
        by_cases hp : p ∈ supportedProviders
        · simp only [hp, if_true]
          unfold fetchClusterName
          cases env "CLUSTER_NAME" with
          | none => rfl
          | some n => rfl
        · simp only [hp, if_false]
    · simp only [hs, if_false]

/-! ## Claims about the configuration loader -/

/-- C1: when `HELMFILE_FILE` is set to `s`, `fetchHelmfile` succeeds (storing
`s`) exactly when `s` begins with one of `file://`, `http://`, `https://`,
`s3://`, `git://`; for every other `s` both `fetchHelmfile` and `New` fail with
the invalid-scheme error, whatever the other two variables hold. -/
theorem C1_source_scheme_validation (env : Env) (s : String)
    (hset : env "HELMFILE_FILE" = some s) :
    (∀ c : Config, (∃ c1, fetchHelmfile env c = .ok c1) ↔ hasAcceptedScheme s) ∧
    (hasAcceptedScheme s →
      ∀ c : Config, fetchHelmfile env c = .ok { c with HelmfileFile := s }) ∧
    (¬ hasAcceptedScheme s →
      (∀ c : Config, fetchHelmfile env c = .error (.errorString
        "HELMFILE_FILE must start with file://, http://, https://, s3://, or git://")) ∧
      New env = .error (.errorString
        "HELMFILE_FILE must start with file://, http://, https://, s3://, or git://")) := by
  refine ⟨?_, ?_, ?_⟩
  · intro c
    rw [fetchHelmfile_eq, hset]
    by_cases h : hasAcceptedScheme s <;> simp [h]
  · intro h c
    rw [fetchHelmfile_eq, hset]
    simp [h]
  · intro h
    refine ⟨?_, ?_⟩
    · intro c
      rw [fetchHelmfile_eq, hset]
      simp [h]
    · rw [New_eq, hset]
      simp [h]

/-- Witness for C1: the empty source, with a valid provider and cluster name. -/
theorem C1_source_scheme_validation_witness :
    mkEnv (some "") (some "aws") (some "demo") "HELMFILE_FILE" = some "" ∧
    ¬ hasAcceptedScheme "" ∧
    New (mkEnv (some "") (some "aws") (some "demo")) = .error (.errorString
      "HELMFILE_FILE must start with file://, http://, https://, s3://, or git://") :=
  ⟨rfl, by decide,
    ((C1_source_scheme_validation (mkEnv (some "") (some "aws") (some "demo")) "" rfl).2.2
      (by decide)).2⟩

/-- C2: when `CLOUD_PROVIDER` is set to `p`: if `p` is none of `aws`, `azure`,
`gcp` then `New` fails; if it is one of them, the source has an accepted scheme
and the cluster name is set, then `New` succeeds and the configuration returned
has `CloudProvider = p`. -/
theorem C2_provider_validation (env : Env) (p : String)
    (hset : env "CLOUD_PROVIDER" = some p) :
    (p ∉ supportedProviders → ∃ err, New env = .error err) ∧
    (p ∈ supportedProviders →
      ∀ s n : String, env "HELMFILE_FILE" = some s → hasAcceptedScheme s →
        env "CLUSTER_NAME" = some n →
        ∃ cfg, New env = .ok cfg ∧ cfg.CloudProvider = p ∧ cfg = ⟨s, p, n⟩) := by
  refine ⟨?_, ?_⟩
  · intro hp
    rw [New_eq, hset]
    cases env "HELMFILE_FILE" with
    | none => exact ⟨_, rfl⟩
    | some s =>
      by_cases hs : hasAcceptedScheme s
      · simp only [hs, hp, if_true, if_false]
        exact ⟨_, rfl⟩
      · simp only [hs, if_false]
        exact ⟨_, rfl⟩
  · intro hp s n hs hacc hn
    refine ⟨⟨s, p, n⟩, ?_, rfl, rfl⟩
    rw [New_eq, hset, hs, hn]
    simp only [hacc, hp, if_true]

/-- Witness for C2: provider `azure` with a valid source and a cluster name. -/
theorem C2_provider_validation_witness :
    mkEnv (some "s3://bucket/helmfile.yaml") (some "azure") (some "demo") "CLOUD_PROVIDER"
      = some "azure" ∧
    "azure" ∈ supportedProviders ∧
    ∃ cfg, New (mkEnv (some "s3://bucket/helmfile.yaml") (some "azure") (some "demo")) = .ok cfg ∧
      cfg.CloudProvider = "azure" ∧ cfg = ⟨"s3://bucket/helmfile.yaml", "azure", "demo"⟩ :=
  ⟨rfl, by decide,
    (C2_provider_validation (mkEnv (some "s3://bucket/helmfile.yaml") (some "azure") (some "demo"))
      "azure" rfl).2 (by decide) "s3://bucket/helmfile.yaml" "demo" rfl (by decide) rfl⟩

/-- C3, as stated, fails: with `CLUSTER_NAME` set to the empty string (and a
valid source and provider) `New` succeeds and returns an empty `ClusterName`. -/
theorem C3_empty_cluster_name_accepted :
    New (mkEnv (some "file:///tmp/helmfile.yaml") (some "aws") (some "")) =
      .ok ⟨"file:///tmp/helmfile.yaml", "aws", ""⟩ ∧
    (Config.mk "file:///tmp/helmfile.yaml" "aws" "").ClusterName = "" :=
  ⟨rfl, rfl⟩

/-- C3, amended: if `New` succeeds then `CLUSTER_NAME` is set in the
environment and the returned `ClusterName` is its value; a cluster name that is
absent is never accepted. -/
theorem C3_cluster_name_present (env : Env) (cfg : Config) (hok : New env = .ok cfg) :
    env "CLUSTER_NAME" = some cfg.ClusterName := by
  rw [New_eq] at hok
  cases hs : env "HELMFILE_FILE" with
  | none => rw [hs] at hok; cases hok
  | some s =>
    rw [hs] at hok
    by_cases hacc : hasAcceptedScheme s
    · simp only [hacc, if_true] at hok
      cases hp : env "CLOUD_PROVIDER" with
      | none => rw [hp] at hok; cases hok
      | some p =>
        rw [hp] at hok
        by_cases hsup : p ∈ supportedProviders
        · simp only [hsup, if_true] at hok
          cases hn : env "CLUSTER_NAME" with
          | none => rw [hn] at hok; cases hok
          | some n =>
            rw [hn] at hok
            cases hok
            rfl
        · simp only [hsup, if_false] at hok
          cases hok
    · simp only [hacc, if_false] at hok
      cases hok

/-- Witness for the amended C3. -/
theorem C3_cluster_name_present_witness :
    New (mkEnv (some "git://host/repo") (some "gcp") (some "prod")) =
      .ok ⟨"git://host/repo", "gcp", "prod"⟩ ∧
    mkEnv (some "git://host/repo") (some "gcp") (some "prod") "CLUSTER_NAME" = some "prod" :=
  ⟨rfl,
    C3_cluster_name_present (mkEnv (some "git://host/repo") (some "gcp") (some "prod"))
      ⟨"git://host/repo", "gcp", "prod"⟩ rfl⟩

/-- What `New` returns as an error is exactly the first problem of the environment. -/
theorem New_error_iff_firstProblem (env : Env) (err : GoError) :
    New env = .error err ↔ firstProblem env = some err := by
  rw [New_eq]
  unfold firstProblem sourceProblem providerProblem clusterNameProblem
  cases env "HELMFILE_FILE" with
  | none => simp [Option.orElse]
  | some s =>
    by_cases hs : hasAcceptedScheme s
    · cases env "CLOUD_PROVIDER" with
      | none => simp [hs, Option.orElse]
      | some p =>
        by_cases hp : p ∈ supportedProviders
        · cases env "CLUSTER_NAME" with
          | none => simp [hs, hp, Option.orElse]
          | some n => simp [hs, hp, Option.orElse]
        · simp [hs, hp, Option.orElse]
    · simp [hs, Option.orElse]

/-- C4, as stated, fails: with a valid source and provider and `CLUSTER_NAME`
set to the empty string, an input is invalid (the cluster name is empty) and
yet `New` succeeds, so failure of `New` is not equivalent to an input being
missing or invalid. -/
theorem C4_empty_cluster_name_no_failure :
    inputMissingOrInvalid (mkEnv (some "file:///tmp/helmfile.yaml") (some "aws") (some "")) ∧
    New (mkEnv (some "file:///tmp/helmfile.yaml") (some "aws") (some "")) =
      .ok ⟨"file:///tmp/helmfile.yaml", "aws", ""⟩ ∧
    ¬ ((∃ err, New (mkEnv (some "file:///tmp/helmfile.yaml") (some "aws") (some "")) = .error err) ↔
      inputMissingOrInvalid (mkEnv (some "file:///tmp/helmfile.yaml") (some "aws") (some ""))) := by
  have hinv : inputMissingOrInvalid
      (mkEnv (some "file:///tmp/helmfile.yaml") (some "aws") (some "")) :=
    Or.inr (Or.inr rfl)
  have hok : New (mkEnv (some "file:///tmp/helmfile.yaml") (some "aws") (some "")) =
      .ok ⟨"file:///tmp/helmfile.yaml", "aws", ""⟩ := rfl
  refine ⟨hinv, hok, ?_⟩
  intro hiff
  obtain ⟨err, herr⟩ := hiff.2 hinv
  rw [hok] at herr
  cases herr

/-- C4, amended: `New` fails exactly when the source is unset or has no
accepted scheme, the provider is unset or outside the enumeration, or the
cluster name is unset (a cluster name set to the empty string is no failure);
the error returned is the one of the first failing input in the order source,
provider, cluster name; its message begins with the name of that input's
variable; in particular an unset variable, the inputs before it being valid,
is the one the error names. Against the specification's wording: a failure of
`New` always has an input missing or invalid, and an input missing or invalid
makes `New` fail unless `CLUSTER_NAME` is set to the empty string. -/
theorem C4_first_failing_input (env : Env) :
    ((∃ err, New env = .error err) ↔
      ((sourceProblem env).isSome ∨ (providerProblem env).isSome ∨
        (clusterNameProblem env).isSome)) ∧
    (∀ err, New env = .error err ↔ firstProblem env = some err) ∧
    (∀ err, sourceProblem env = some err →
      firstProblem env = some err ∧ "HELMFILE_FILE".data <+: err.Error.data) ∧
    (∀ err, sourceProblem env = none → providerProblem env = some err →
      firstProblem env = some err ∧ "CLOUD_PROVIDER".data <+: err.Error.data) ∧
    (∀ err, sourceProblem env = none → providerProblem env = none →
      clusterNameProblem env = some err →
      firstProblem env = some err ∧ "CLUSTER_NAME".data <+: err.Error.data) ∧
    (env "HELMFILE_FILE" = none →
      New env = .error (.errorString "HELMFILE_FILE environment variable is not set")) ∧
    (sourceProblem env = none → env "CLOUD_PROVIDER" = none →
      New env = .error (.errorString "CLOUD_PROVIDER environment variable is not set")) ∧
    (sourceProblem env = none → providerProblem env = none → env "CLUSTER_NAME" = none →
      New env = .error (.errorString "CLUSTER_NAME environment variable is not set")) ∧
    ((∃ err, New env = .error err) → inputMissingOrInvalid env) ∧
    (inputMissingOrInvalid env →
      (∃ err, New env = .error err) ∨ env "CLUSTER_NAME" = some "") := by
  refine ⟨?_, New_error_iff_firstProblem env, ?_, ?_, ?_, ?_, ?_, ?_, ?_, ?_⟩
  · simp only [New_error_iff_firstProblem, firstProblem]
    cases sourceProblem env <;> cases providerProblem env <;> cases clusterNameProblem env <;>
      simp [Option.orElse]
  · intro err h
    refine ⟨by simp [firstProblem, h, Option.orElse], ?_⟩
    unfold sourceProblem at h
    split at h
    · cases h; decide
    · split at h
      · cases h
      · cases h; decide
  · intro err h0 h
    refine ⟨by simp [firstProblem, h0, h, Option.orElse], ?_⟩
    unfold providerProblem at h
    split at h
    · cases h; decide
    · split at h
      · cases h
      · cases h; decide
  · intro err h0 h1 h
    refine ⟨by simp [firstProblem, h0, h1, h, Option.orElse], ?_⟩
    unfold clusterNameProblem at h
    split at h
    · cases h; decide
    · cases h
  · intro h
    rw [New_error_iff_firstProblem]
    simp [firstProblem, sourceProblem, h, Option.orElse]
  · intro h0 h
    rw [New_error_iff_firstProblem]
    simp [firstProblem, providerProblem, h0, h, Option.orElse]
  · intro h0 h1 h
    rw [New_error_iff_firstProblem]
    simp [firstProblem, clusterNameProblem, h0, h1, h, Option.orElse]
  · rintro ⟨err, herr⟩
    rw [New_eq] at herr
    unfold inputMissingOrInvalid
    cases hs : env "HELMFILE_FILE" with
    | none => exact Or.inl trivial
    | some s =>
      by_cases hacc : hasAcceptedScheme s
      · right
        rw [hs] at herr
        simp only [hacc, if_true] at herr
        cases hp : env "CLOUD_PROVIDER" with
        | none => exact Or.inl trivial
        | some p =>
          by_cases hsup : p ∈ supportedProviders
          · right
            rw [hp] at herr
            simp only [hsup, if_true] at herr
            cases hn : env "CLUSTER_NAME" with
            | none => trivial
            | some n => rw [hn] at herr; cases herr
          · exact Or.inl hsup
      · exact Or.inl hacc
  · intro hinv
    rw [New_eq]
    unfold inputMissingOrInvalid at hinv
    cases hs : env "HELMFILE_FILE" with
    | none => exact Or.inl ⟨_, rfl⟩
    | some s =>
      by_cases hacc : hasAcceptedScheme s
      · simp only [hacc, if_true]
        cases hp : env "CLOUD_PROVIDER" with
        | none => exact Or.inl ⟨_, rfl⟩
        | some p =>
          by_cases hsup : p ∈ supportedProviders
          · simp only [hsup, if_true]
            cases hn : env "CLUSTER_NAME" with
            | none => exact Or.inl ⟨_, rfl⟩
            | some n =>
              right
              rw [hs, hp, hn] at hinv
              rcases hinv with h | h | h
              · exact absurd hacc h
              · exact absurd hsup h
              · simp only at h
                rw [h]
          · simp only [hsup, if_false]
            exact Or.inl ⟨_, rfl⟩
      · simp only [hacc, if_false]
        exact Or.inl ⟨_, rfl⟩

/-- Witness for C4: only `CLOUD_PROVIDER` is unset, and the error names it. -/
theorem C4_first_failing_input_witness :
    New (mkEnv (some "http://host/helmfile.yaml") none (some "demo")) =
      .error (.errorString "CLOUD_PROVIDER environment variable is not set") :=
  (C4_first_failing_input (mkEnv (some "http://host/helmfile.yaml") none (some "demo"))).2.2.2.2.2.2.1
    (by decide) rfl

/-! ## Claims about the artifact fetcher and the cluster configurator -/

/-- C5: when the retrieval reports success, `getHelmfile` returns success
exactly when `os.Stat` succeeds with a size strictly greater than zero; a file
of size zero gives the `downloaded file is empty` error; when the retrieval
fails its error is returned unchanged; and the error of an empty or missing
artifact is never equal to the error returned for a failed retrieval. -/
theorem C5_getHelmfile_postcondition (w : World) (source destination : String) :
    (w.clientGet source destination = none →
      (((getHelmfile w source destination).2 = none ↔
          ∃ size, w.osStat destination = .ok size ∧ 0 < size) ∧
        (w.osStat destination = .ok 0 →
          (getHelmfile w source destination).2 =
            some (.errorString "downloaded file is empty")) ∧
        (∀ err, w.osStat destination = .error err →
          (getHelmfile w source destination).2 =
            some (.wrapError ("failed to stat downloaded file: " ++ err) (.foreign err))))) ∧
    (∀ err, w.clientGet source destination = some err →
      (getHelmfile w source destination).2 = some (.foreign err)) ∧
    (∀ (w1 : World) (source1 destination1 : String),
      w.clientGet source destination = none →
      w1.clientGet source1 destination1 ≠ none →
      (getHelmfile w source destination).2 = none ∨
        (getHelmfile w source destination).2 ≠ (getHelmfile w1 source1 destination1).2) := by
  refine ⟨?_, ?_, ?_⟩
  · intro hget
    refine ⟨?_, ?_, ?_⟩
    · unfold getHelmfile
      rw [hget]
      cases w.osStat destination with
      | error err => simp
      | ok size =>
        by_cases hz : size = 0
        · simp [hz, errorsNew]
        · simp [hz, Nat.pos_of_ne_zero hz]
    · intro hstat
      unfold getHelmfile
      rw [hget, hstat]
      rfl
    · intro err hstat
      unfold getHelmfile
      rw [hget, hstat]
  · intro err hget
    unfold getHelmfile
    rw [hget]
  · intro w1 source1 destination1 hget hget1
    cases h1 : w1.clientGet source1 destination1 with
    | none => exact absurd h1 hget1
    | some err1 =>
      unfold getHelmfile
      rw [hget, h1]
      cases w.osStat destination with
      | error err => right; simp
      | ok size =>
        by_cases hz : size = 0
        · right; simp [hz, errorsNew]
        · left; simp [hz]

/-- Witness for C5: the retrieval succeeds and leaves an empty file. -/
theorem C5_getHelmfile_postcondition_witness :
    (getHelmfile (mkWorld (mkEnv none none none) none (.ok 0) none ([], none))
      "https://example.org/helmfile.yaml" "./helmfile.yaml").2 =
        some (.errorString "downloaded file is empty") :=
  ((C5_getHelmfile_postcondition (mkWorld (mkEnv none none none) none (.ok 0) none ([], none))
    "https://example.org/helmfile.yaml" "./helmfile.yaml").1 rfl).2.1 rfl

/-- C6: for provider `azure` or `gcp` and any cluster name, `configureCluster`
returns no error, starts no child process, and emits exactly two log records:
an informational one followed by a warning. -/
theorem C6_stub_providers (w : World) (cfg : Config)
    (hp : cfg.CloudProvider = Azure ∨ cfg.CloudProvider = GCP) :
    (configureCluster w cfg).2 = none ∧
    externalCalls (configureCluster w cfg).1 = [] ∧
    execs (configureCluster w cfg).1 = [] ∧
    ∃ r1 r2, (configureCluster w cfg).1 = [Event.log r1, Event.log r2] ∧
      r1.level = .info ∧ r2.level = .warn := by
  have haws : ¬ cfg.CloudProvider = AWS := by
    rcases hp with h | h <;> rw [h] <;> decide
  unfold configureCluster
  rcases hp with h | h
  · simp only [haws, h, if_true, if_false]
    exact ⟨rfl, rfl, rfl, _, _, rfl, rfl, rfl⟩
  · have hazure : ¬ cfg.CloudProvider = Azure := by rw [h]; decide
    simp only [haws, hazure, h, if_true, if_false]
    exact ⟨rfl, rfl, rfl, _, _, rfl, rfl, rfl⟩

/-- Witness for C6: provider `gcp`. -/
theorem C6_stub_providers_witness :
    (configureCluster (mkWorld (mkEnv none none none) none (.ok 1) (some "exit status 1") ([], none))
      ⟨"file:///m.yaml", "gcp", "demo"⟩).2 = none ∧
    execs (configureCluster
      (mkWorld (mkEnv none none none) none (.ok 1) (some "exit status 1") ([], none))
      ⟨"file:///m.yaml", "gcp", "demo"⟩).1 = [] :=
  have h := C6_stub_providers
    (mkWorld (mkEnv none none none) none (.ok 1) (some "exit status 1") ([], none))
    ⟨"file:///m.yaml", "gcp", "demo"⟩ (Or.inr rfl)
  ⟨h.1, h.2.2.1⟩

/-- C7: for provider `aws` and cluster name `n`, `configureCluster` starts
exactly one child process, with the argument vector
`[aws, eks, update-kubeconfig, --name, n]`, and returns an error exactly when
that command fails, the error being the one of the command. -/
theorem C7_aws_command (w : World) (cfg : Config) (hp : cfg.CloudProvider = AWS) :
    execs (configureCluster w cfg).1 =
      [["aws", "eks", "update-kubeconfig", "--name", cfg.ClusterName]] ∧
    externalCalls (configureCluster w cfg).1 =
      [Event.exec ["aws", "eks", "update-kubeconfig", "--name", cfg.ClusterName]] ∧
    (configureCluster w cfg).2 =
      (w.cmdRun ["aws", "eks", "update-kubeconfig", "--name", cfg.ClusterName]).map
        GoError.foreign ∧
    ((configureCluster w cfg).2 ≠ none ↔
      w.cmdRun ["aws", "eks", "update-kubeconfig", "--name", cfg.ClusterName] ≠ none) := by
  unfold configureCluster
  simp only [hp, if_true]
  cases w.cmdRun ["aws", "eks", "update-kubeconfig", "--name", cfg.ClusterName] with
  | none => exact ⟨rfl, rfl, rfl, by simp⟩
  | some err => exact ⟨rfl, rfl, rfl, by simp⟩

/-- Witness for C7: the command fails for a cluster name with a blank in it. -/
theorem C7_aws_command_witness :
    execs (configureCluster
      (mkWorld (mkEnv none none none) none (.ok 1) (some "exit status 254") ([], none))
      ⟨"file:///m.yaml", "aws", "my cluster"⟩).1 =
      [["aws", "eks", "update-kubeconfig", "--name", "my cluster"]] ∧
    (configureCluster
      (mkWorld (mkEnv none none none) none (.ok 1) (some "exit status 254") ([], none))
      ⟨"file:///m.yaml", "aws", "my cluster"⟩).2 = some (.foreign "exit status 254") :=
  have h := C7_aws_command
    (mkWorld (mkEnv none none none) none (.ok 1) (some "exit status 254") ([], none))
    ⟨"file:///m.yaml", "aws", "my cluster"⟩ rfl
  ⟨h.1, h.2.2.1⟩

/-- C10 at provider `azure`: the informational record names Azure, and the
warning that follows it names GCP. -/
theorem C10_azure_warning_names_gcp (w : World) (source clusterName : String) :
    (configureCluster w ⟨source, Azure, clusterName⟩).1 =
      [Event.log ⟨.info, "Configuring Azure cluster", [("cluster", .str clusterName)]⟩,
       Event.log ⟨.warn, "GCP support is not implemented yet", []⟩] := by
  rfl

/-! ## The orchestrator -/

theorem externalCalls_append (t u : List Event) :
    externalCalls (t ++ u) = externalCalls t ++ externalCalls u := by
  simp [externalCalls]

theorem execs_append (t u : List Event) : execs (t ++ u) = execs t ++ execs u := by
  simp [execs]

theorem logs_append (t u : List Event) : logs (t ++ u) = logs t ++ logs u := by
  simp [logs]

/-- The trace of `getHelmfile`: the retrieval, and the stat when the retrieval succeeded. -/
theorem getHelmfile_trace (w : World) (source destination : String) :
    ((getHelmfile w source destination).1 = [Event.get source destination] ∧
      (getHelmfile w source destination).2 ≠ none) ∨
    (getHelmfile w source destination).1 =
      [Event.get source destination, Event.stat destination] := by
  unfold getHelmfile
  cases w.clientGet source destination with
  | some err => left; simp
  | none =>
    right
    cases w.osStat destination with
    | error err => rfl
    | ok size => by_cases hz : size = 0 <;> simp [hz]

/-- The trace of `configureCluster`, by provider. -/
theorem configureCluster_trace (w : World) (cfg : Config) :
    (cfg.CloudProvider = "aws" ∧
      (configureCluster w cfg).1 =
        [Event.log ⟨.info, "Configuring AWS cluster", [("cluster", .str cfg.ClusterName)]⟩,
          Event.exec (awsCommand cfg.ClusterName)]) ∨
    (cfg.CloudProvider ≠ "aws" ∧
      (((configureCluster w cfg).1 =
        [Event.log ⟨.info, "Configuring Azure cluster", [("cluster", .str cfg.ClusterName)]⟩,
          Event.log ⟨.warn, "GCP support is not implemented yet", []⟩]) ∨
       ((configureCluster w cfg).1 =
        [Event.log ⟨.info, "Configuring GCP cluster", [("cluster", .str cfg.ClusterName)]⟩,
          Event.log ⟨.warn, "GCP support is not implemented yet", []⟩]) ∨
       ((configureCluster w cfg).1 = [] ∧ (configureCluster w cfg).2 ≠ none))) := by
  unfold configureCluster
  by_cases h1 : cfg.CloudProvider = AWS
  · left
    refine ⟨h1, ?_⟩
    simp only [h1, if_true]
    cases w.cmdRun ["aws", "eks", "update-kubeconfig", "--name", cfg.ClusterName] <;> rfl
  · right
    refine ⟨h1, ?_⟩
    by_cases h2 : cfg.CloudProvider = Azure
    · left; rw [if_neg h1, if_pos h2]
    · by_cases h3 : cfg.CloudProvider = GCP
      · right; left; rw [if_neg h1, if_neg h2, if_pos h3]
      · right; right; rw [if_neg h1, if_neg h2, if_neg h3]; simp

theorem main_of_load_error (w : World) (err : GoError) (h : New w.env = .error err) :
    main w =
      ([Event.log ⟨.fatal, "Failed to load config", [("error", .err err)]⟩], .osExit 1) := by
  unfold main
  rw [h]

theorem main_of_fetch_error (w : World) (cfg : Config) (err : GoError)
    (h : New w.env = .ok cfg)
    (hf : (getHelmfile w cfg.HelmfileFile FILE_DESTINATION).2 = some err) :
    main w =
      ([Event.log ⟨.info, "kubeinit started", [("config", .cfg cfg)]⟩] ++
        (getHelmfile w cfg.HelmfileFile FILE_DESTINATION).1 ++
        [Event.log ⟨.fatal, "Failed to download Helmfile", [("error", .err err)]⟩],
        .osExit 1) := by
  rcases hg : getHelmfile w cfg.HelmfileFile FILE_DESTINATION with ⟨t1, r1⟩
  rw [hg] at hf
  simp only at hf
  subst hf
  simp only [main, h, hg]

theorem main_of_configure_error (w : World) (cfg : Config) (err : GoError)
    (h : New w.env = .ok cfg)
    (hf : (getHelmfile w cfg.HelmfileFile FILE_DESTINATION).2 = none)
    (hc : (configureCluster w cfg).2 = some err) :
    main w =
      ([Event.log ⟨.info, "kubeinit started", [("config", .cfg cfg)]⟩] ++
        (getHelmfile w cfg.HelmfileFile FILE_DESTINATION).1 ++
        [Event.log ⟨.info, "Helmfile file downloaded successfully", []⟩] ++
        (configureCluster w cfg).1 ++
        [Event.log ⟨.fatal, err.Error, []⟩],
        .osExit 1) := by
  rcases hg : getHelmfile w cfg.HelmfileFile FILE_DESTINATION with ⟨t1, r1⟩
  rw [hg] at hf
  simp only at hf
  subst hf
  rcases hk : configureCluster w cfg with ⟨t3, r3⟩
  rw [hk] at hc
  simp only at hc
  subst hc
  simp only [main, h, hg, hk]

theorem main_of_deploy (w : World) (cfg : Config)
    (h : New w.env = .ok cfg)
    (hf : (getHelmfile w cfg.HelmfileFile FILE_DESTINATION).2 = none)
    (hc : (configureCluster w cfg).2 = none) :
    main w =
      ([Event.log ⟨.info, "kubeinit started", [("config", .cfg cfg)]⟩] ++
        (getHelmfile w cfg.HelmfileFile FILE_DESTINATION).1 ++
        [Event.log ⟨.info, "Helmfile file downloaded successfully", []⟩] ++
        (configureCluster w cfg).1 ++
        [Event.log ⟨.info, "Kubernetes cluster configured successfully",
          [("cluster", .str cfg.ClusterName)]⟩] ++
        [Event.exec helmfileCommand,
          match w.cmdCombinedOutput helmfileCommand with
          | (out, some err) =>
            Event.log ⟨.error, "command failed",
              [("error", .err (.foreign err)), ("output", .bytes out)]⟩
          | (out, none) => Event.log ⟨.info, "command output", [("output", .bytes out)]⟩],
        .returned) := by
  rcases hg : getHelmfile w cfg.HelmfileFile FILE_DESTINATION with ⟨t1, r1⟩
  rw [hg] at hf
  simp only at hf
  subst hf
  rcases hk : configureCluster w cfg with ⟨t3, r3⟩
  rw [hk] at hc
  simp only at hc
  subst hc
  simp only [main, h, hg, hk]
  simp only [helmfileCommand, FILE_DESTINATION]
  rcases ho : w.cmdCombinedOutput ["helmfile", "-f", "./helmfile.yaml", "apply"] with ⟨out, r⟩
  cases r <;> simp

theorem pipeline_nodup (cfg : Config) : (pipeline cfg).Nodup := by
  unfold pipeline awsCommand helmfileCommand
  by_cases h : cfg.CloudProvider = "aws" <;> simp [h]

theorem externalCalls_getHelmfile_initial (w : World) (source destination : String)
    (rest : List Event) :
    externalCalls (getHelmfile w source destination).1 <+:
      [Event.get source destination, Event.stat destination] ++ rest := by
  rcases getHelmfile_trace w source destination with ⟨h, _⟩ | h
  · rw [h]
    exact ⟨Event.stat destination :: rest, rfl⟩
  · rw [h]
    exact ⟨rest, rfl⟩

theorem externalCalls_configureCluster (w : World) (cfg : Config) :
    externalCalls (configureCluster w cfg).1 =
      if cfg.CloudProvider = "aws" then [Event.exec (awsCommand cfg.ClusterName)] else [] := by
  rcases configureCluster_trace w cfg with ⟨h1, h2⟩ | ⟨h1, h2 | h2 | ⟨h2, _⟩⟩
  · rw [h2, if_pos h1]; rfl
  · rw [h2, if_neg h1]; rfl
  · rw [h2, if_neg h1]; rfl
  · rw [h2, if_neg h1]; rfl

theorem execs_getHelmfile (w : World) (source destination : String) :
    execs (getHelmfile w source destination).1 = [] := by
  rcases getHelmfile_trace w source destination with ⟨h, _⟩ | h <;> rw [h] <;> rfl

theorem execs_configureCluster (w : World) (cfg : Config) :
    execs (configureCluster w cfg).1 =
      if cfg.CloudProvider = "aws" then [awsCommand cfg.ClusterName] else [] := by
  rcases configureCluster_trace w cfg with ⟨h1, h2⟩ | ⟨h1, h2 | h2 | ⟨h2, _⟩⟩
  · rw [h2, if_pos h1]; rfl
  · rw [h2, if_neg h1]; rfl
  · rw [h2, if_neg h1]; rfl
  · rw [h2, if_neg h1]; rfl

/-- C8: in every run of `main` the calls to collaborators form a prefix of the
sequence fetch, configure, deploy, each call made at most once; when `New`
fails the trace is the one fatal record and the process exits with status 1;
when `getHelmfile` fails no child process is started, and when
`configureCluster` fails the helmfile command is not started; each of the two
ends with a fatal record and `os.Exit(1)`. -/
theorem C8_stage_order (w : World) :
    (∀ err, New w.env = .error err →
      main w =
        ([Event.log ⟨.fatal, "Failed to load config", [("error", .err err)]⟩], .osExit 1) ∧
      externalCalls (main w).1 = []) ∧
    (∀ cfg, New w.env = .ok cfg →
      externalCalls (main w).1 <+: pipeline cfg ∧
      (pipeline cfg).Nodup ∧
      (∀ err, (getHelmfile w cfg.HelmfileFile FILE_DESTINATION).2 = some err →
        execs (main w).1 = [] ∧
        (main w).1.getLast? =
          some (Event.log ⟨.fatal, "Failed to download Helmfile", [("error", .err err)]⟩) ∧
        (main w).2 = .osExit 1) ∧
      ((getHelmfile w cfg.HelmfileFile FILE_DESTINATION).2 = none →
        ∀ err, (configureCluster w cfg).2 = some err →
          helmfileCommand ∉ execs (main w).1 ∧
          (main w).1.getLast? = some (Event.log ⟨.fatal, err.Error, []⟩) ∧
          (main w).2 = .osExit 1)) := by
  refine ⟨?_, ?_⟩
  · intro err h
    rw [main_of_load_error w err h]
    exact ⟨rfl, rfl⟩
  · intro cfg h
    have hfetchfail : ∀ err, (getHelmfile w cfg.HelmfileFile FILE_DESTINATION).2 = some err →
        externalCalls (main w).1 <+: pipeline cfg ∧ execs (main w).1 = [] ∧
        (main w).1.getLast? =
          some (Event.log ⟨.fatal, "Failed to download Helmfile", [("error", .err err)]⟩) ∧
        (main w).2 = .osExit 1 := by
      intro err hf
      rw [main_of_fetch_error w cfg err h hf]
      refine ⟨?_, ?_, ?_, rfl⟩
      · simp only [externalCalls_append]
        have := externalCalls_getHelmfile_initial w cfg.HelmfileFile FILE_DESTINATION
          ((if cfg.CloudProvider = "aws" then [Event.exec (awsCommand cfg.ClusterName)] else []) ++
            [Event.exec helmfileCommand])
        simpa [externalCalls, pipeline, FILE_DESTINATION] using this
      · simp only [execs_append, execs_getHelmfile]
        rfl
      · exact List.getLast?_concat _
    have hconffail : (getHelmfile w cfg.HelmfileFile FILE_DESTINATION).2 = none →
        ∀ err, (configureCluster w cfg).2 = some err →
        externalCalls (main w).1 <+: pipeline cfg ∧ helmfileCommand ∉ execs (main w).1 ∧
        (main w).1.getLast? = some (Event.log ⟨.fatal, err.Error, []⟩) ∧
        (main w).2 = .osExit 1 := by
      intro hf err hc
      rw [main_of_configure_error w cfg err h hf hc]
      have ht : (getHelmfile w cfg.HelmfileFile FILE_DESTINATION).1 =
          [Event.get cfg.HelmfileFile FILE_DESTINATION, Event.stat FILE_DESTINATION] := by
        rcases getHelmfile_trace w cfg.HelmfileFile FILE_DESTINATION with ⟨_, h2⟩ | h2
        · exact absurd hf h2
        · exact h2
      refine ⟨?_, ?_, ?_, rfl⟩
      · simp only [externalCalls_append, externalCalls_configureCluster, ht]
        refine ⟨[Event.exec helmfileCommand], ?_⟩
        simp [externalCalls, pipeline, FILE_DESTINATION]
      · simp only [execs_append, execs_configureCluster, ht]
        by_cases hp : cfg.CloudProvider = "aws" <;>
          simp [hp, execs, awsCommand, helmfileCommand]
      · exact List.getLast?_concat _
    refine ⟨?_, pipeline_nodup cfg, fun err hf => (hfetchfail err hf).2,
      fun hf err hc => (hconffail hf err hc).2⟩
    cases hf : (getHelmfile w cfg.HelmfileFile FILE_DESTINATION).2 with
    | some err => exact (hfetchfail err hf).1
    | none =>
      cases hc : (configureCluster w cfg).2 with
      | some err => exact (hconffail hf err hc).1
      | none =>
        rw [main_of_deploy w cfg h hf hc]
        have ht : (getHelmfile w cfg.HelmfileFile FILE_DESTINATION).1 =
            [Event.get cfg.HelmfileFile FILE_DESTINATION, Event.stat FILE_DESTINATION] := by
          rcases getHelmfile_trace w cfg.HelmfileFile FILE_DESTINATION with ⟨_, h2⟩ | h2
          · exact absurd hf h2
          · exact h2
        simp only [externalCalls_append, externalCalls_configureCluster, ht]
        refine ⟨[], ?_⟩
        rcases w.cmdCombinedOutput helmfileCommand with ⟨out, _ | e⟩ <;>
          simp [externalCalls, pipeline, FILE_DESTINATION]

/-- Witness for C8: `CLUSTER_NAME` is not set, so the run is the one fatal record. -/
theorem C8_stage_order_witness :
    main (mkWorld (mkEnv (some "file:///tmp/m.yaml") (some "aws") none) none (.ok 9) none
        ([], none)) =
      ([Event.log ⟨.fatal, "Failed to load config",
          [("error", .err (.errorString "CLUSTER_NAME environment variable is not set"))]⟩],
        .osExit 1) :=
  ((C8_stage_order (mkWorld (mkEnv (some "file:///tmp/m.yaml") (some "aws") none) none (.ok 9)
    none ([], none))).1 (.errorString "CLUSTER_NAME environment variable is not set") rfl).1

/-- The log records of a successful `configureCluster` are informational or warnings,
and none has the message of the deployment records. -/
theorem logs_configureCluster (w : World) (cfg : Config) :
    ∀ r ∈ logs (configureCluster w cfg).1,
      (r.level = .info ∨ r.level = .warn) ∧ r.msg ≠ "command output" := by
  intro r hr
  rcases configureCluster_trace w cfg with ⟨_, h2⟩ | ⟨_, h2 | h2 | ⟨h2, _⟩⟩ <;>
    rw [h2] at hr <;> simp [logs] at hr
  · subst hr; exact ⟨Or.inl rfl, by simp⟩
  · rcases hr with rfl | rfl
    · exact ⟨Or.inl rfl, by simp⟩
    · exact ⟨Or.inr rfl, by simp⟩
  · rcases hr with rfl | rfl
    · exact ⟨Or.inl rfl, by simp⟩
    · exact ⟨Or.inr rfl, by simp⟩

/-- C9: when load, fetch and configure succeed, the last child process is the
deployment command and `main` returns (exit status 0) whether the command
fails or not; if it fails with combined output `o`, the run ends with the one
error record of the trace, carrying the failure and `o`; if it succeeds, the
run ends with an informational record carrying `o`; a failure of load, fetch or
configure ends the process with exit status 1. -/
theorem C9_deploy_failure_not_fatal (w : World) :
    (∀ cfg, New w.env = .ok cfg →
      (getHelmfile w cfg.HelmfileFile FILE_DESTINATION).2 = none →
      (configureCluster w cfg).2 = none →
      (execs (main w).1).getLast? = some ["helmfile", "-f", "./helmfile.yaml", "apply"] ∧
      (main w).2 = .returned ∧ (main w).2.status = 0 ∧
      (∀ o err, w.cmdCombinedOutput ["helmfile", "-f", "./helmfile.yaml", "apply"] = (o, some err) →
        (main w).1.getLast? = some (Event.log ⟨.error, "command failed",
          [("error", .err (.foreign err)), ("output", .bytes o)]⟩) ∧
        (logs (main w).1).filter (fun r => decide (r.level = .error)) =
          [⟨.error, "command failed", [("error", .err (.foreign err)), ("output", .bytes o)]⟩]) ∧
      (∀ o, w.cmdCombinedOutput ["helmfile", "-f", "./helmfile.yaml", "apply"] = (o, none) →
        (main w).1.getLast? =
          some (Event.log ⟨.info, "command output", [("output", .bytes o)]⟩) ∧
        (logs (main w).1).filter (fun r => decide (r.msg = "command output")) =
          [⟨.info, "command output", [("output", .bytes o)]⟩] ∧
        (logs (main w).1).filter (fun r => decide (r.level = .error)) = [])) ∧
    (∀ err, New w.env = .error err → (main w).2.status = 1) ∧
    (∀ cfg err, New w.env = .ok cfg →
      (getHelmfile w cfg.HelmfileFile FILE_DESTINATION).2 = some err → (main w).2.status = 1) ∧
    (∀ cfg err, New w.env = .ok cfg →
      (getHelmfile w cfg.HelmfileFile FILE_DESTINATION).2 = none →
      (configureCluster w cfg).2 = some err → (main w).2.status = 1) := by
  refine ⟨?_, ?_, ?_, ?_⟩
  · intro cfg h hf hc
    have ht : (getHelmfile w cfg.HelmfileFile FILE_DESTINATION).1 =
        [Event.get cfg.HelmfileFile FILE_DESTINATION, Event.stat FILE_DESTINATION] := by
      rcases getHelmfile_trace w cfg.HelmfileFile FILE_DESTINATION with ⟨_, h2⟩ | h2
      · exact absurd hf h2
      · exact h2
    have hlev : (logs (configureCluster w cfg).1).filter (fun r => decide (r.level = .error))
        = [] := by
      rw [List.filter_eq_nil_iff]
      intro r hr
      rcases (logs_configureCluster w cfg r hr).1 with h1 | h1 <;> simp [h1]
    have hmsg : (logs (configureCluster w cfg).1).filter
        (fun r => decide (r.msg = "command output")) = [] := by
      rw [List.filter_eq_nil_iff]
      intro r hr
      simp [(logs_configureCluster w cfg r hr).2]
    rw [main_of_deploy w cfg h hf hc, ht]
    simp only [helmfileCommand]
    rcases ho : w.cmdCombinedOutput ["helmfile", "-f", "./helmfile.yaml", "apply"] with
      ⟨out, _ | e⟩
    · refine ⟨?_, trivial, rfl, ?_, ?_⟩
      · simp only [execs_append]
        rw [List.getLast?_append]
        rfl
      · intro o err ho1
        cases ho1
      · intro o ho1
        cases ho1
        refine ⟨?_, ?_, ?_⟩
        · simp only []
          rw [List.getLast?_append]
          rfl
        · simp only [logs_append, List.filter_append, hmsg]
          simp [logs]
        · simp only [logs_append, List.filter_append, hlev]
          simp [logs]
    · refine ⟨?_, trivial, rfl, ?_, ?_⟩
      · simp only [execs_append]
        rw [List.getLast?_append]
        rfl
      · intro o err ho1
        cases ho1
        refine ⟨?_, ?_⟩
        · simp only []
          rw [List.getLast?_append]
          rfl
        · simp only [logs_append, List.filter_append, hlev]
          simp [logs]
      · intro o ho1
        cases ho1
  · intro err h
    rw [main_of_load_error w err h]
    rfl
  · intro cfg err h hf
    rw [main_of_fetch_error w cfg err h hf]
    rfl
  · intro cfg err h hf hc
    rw [main_of_configure_error w cfg err h hf hc]
    rfl

/-- Witness for C9: the deployment command fails with output `ERROR: permission denied`. -/
theorem C9_deploy_failure_not_fatal_witness :
    (main deployFailureWorld).2 = .returned ∧
    (main deployFailureWorld).1.getLast? = some (Event.log ⟨.error, "command failed",
      [("error", .err (.foreign "exit status 1")), ("output", .bytes permissionDenied)]⟩) ∧
    (logs (main deployFailureWorld).1).filter (fun r => decide (r.level = .error)) =
      [⟨.error, "command failed",
        [("error", .err (.foreign "exit status 1")), ("output", .bytes permissionDenied)]⟩] :=
  have h := (C9_deploy_failure_not_fatal deployFailureWorld).1
    ⟨"file:///tmp/test-manifest.yaml", "aws", "demo"⟩ rfl rfl rfl
  ⟨h.2.1, (h.2.2.2.1 permissionDenied "exit status 1" rfl).1,
    (h.2.2.2.1 permissionDenied "exit status 1" rfl).2⟩

end Kubeinit
